import Mathlib

/-!
Verification of the SUMI build-time tooling.

This file gives a shallow embedding of the three Python source files of the
repository and proves the frozen claims about them:

* `tools/generate_settings.py` — the settings schema generator: a declarative
  settings schema (`SettingsSchema`) projected into four textual artifacts
  (a C++ firmware header, a JSON validation schema, TypeScript interfaces,
  and markdown documentation).
* `portal/build.py` — the portal asset bundler (`collect_css` / `collect_js`).
* `tools/redact_screenshots.py` — the screenshot redactor.

Python dictionaries preserve insertion order, so every dict of the source is
embedded as an association list (`List (String × _)`).  The generators are
pure functions of the schema except for the embedded `datetime.now()`
timestamp, which is passed explicitly as a `ts : String` argument.  Each
generator that builds a Python `lines` list and returns `"\n".join(lines)`
is embedded at the level of that line list.
-/

namespace Sumi

/-- The four setting type tags of the schema (`"int"`, `"float"`, `"bool"`,
`"string"`).  The source only ever constructs and consumes these four. -/
inductive SType
  | tint
  | tfloat
  | tbool
  | tstr
  deriving DecidableEq, Repr

/-- A Python value appearing in a setting definition (`default`, `min`,
`max`).  Python floats are carried as exact rationals; the schema literal in
the source only contains integer-valued floats, so no IEEE-754 rounding is
involved for any value that actually occurs. -/
inductive SValue
  | vint (n : Int)
  | vfloat (q : Rat)
  | vbool (b : Bool)
  | vstr (s : String)
  deriving DecidableEq, Repr

/-- One setting definition dict: keys `type`, `default`, optional `min`,
`max`, `maxLength`, and `description`. -/
structure SettingDef where
  type : SType
  default : SValue
  min : Option SValue := none
  max : Option SValue := none
  maxLength : Option Nat := none
  description : String
  deriving DecidableEq, Repr

/-- One group dict: key `description` and the ordered `settings` dict. -/
structure SettingGroup where
  description : String
  settings : List (String × SettingDef)
  deriving DecidableEq, Repr

/-- The whole `SETTINGS_SCHEMA` dict: `version` and the ordered `groups`. -/
structure SettingsSchema where
  version : Int
  groups : List (String × SettingGroup)
  deriving DecidableEq, Repr

/-- Python `str.upper()` (the schema keys are ASCII). -/
def pyUpper (s : String) : String :=
  String.mk (s.data.map Char.toUpper)

/-- Python `str.capitalize()`: first character upper-cased, the rest
lower-cased (the schema keys are ASCII). -/
def pyCapitalize (s : String) : String :=
  match s.data with
  | [] => ""
  | c :: rest => String.mk (c.toUpper :: rest.map Char.toLower)

/-- Python truthiness of a schema value (`bool(v)`), used by
`"true" if default else "false"`. -/
def pyTruthy : SValue → Bool
  | .vint n => !(n == 0)
  | .vfloat q => !(q == 0)
  | .vbool b => b
  | .vstr s => !(s == "")

/-- Python `str()` of a float.  All float literals in the source schema are
integer-valued, where CPython prints `n.0`; the non-integer branch is never
reached by any value occurring in the repository. -/
def pyFloatRepr (q : Rat) : String :=
  if q.den = 1 then toString q.num ++ ".0" else toString q

/-- Python `str()` of a schema value, as interpolated by the f-strings of the
generators. -/
def pyStr : SValue → String
  | .vint n => toString n
  | .vfloat q => pyFloatRepr q
  | .vbool b => if b then "True" else "False"
  | .vstr s => s

/-! ## `generate_cpp_header` (generate_settings.py lines 240–303) -/

/-- The `cpp_type` lookup dict of `generate_cpp_header`. -/
def cppTypeName : SType → String
  | .tint => "int"
  | .tfloat => "float"
  | .tbool => "bool"
  | .tstr => "char"

/-- The default-initializer text of a non-string field: bools become
`true`/`false` via Python truthiness, floats get an `f` suffix, ints are
printed as is. -/
def cppDefaultStr (sd : SettingDef) : String :=
  match sd.type with
  | .tbool => if pyTruthy sd.default then "true" else "false"
  | .tfloat => pyStr sd.default ++ "f"
  | _ => pyStr sd.default

/-- The struct field line of one setting, minus its common four-space
indentation: `char name[len];  // desc` for strings
(`maxLength` defaulting to 32 via `.get("maxLength", 32)`), and
`type name = default;  // desc` otherwise. -/
def cppFieldBody (name : String) (sd : SettingDef) : String :=
  match sd.type with
  | .tstr =>
      "char " ++ name ++ "[" ++ toString (sd.maxLength.getD 32) ++ "];  // "
        ++ sd.description
  | t =>
      cppTypeName t ++ " " ++ name ++ " = " ++ cppDefaultStr sd ++ ";  // "
        ++ sd.description

/-- The struct field line of one setting (f-string
`"    {cpp_type} {setting_name} ..."`). -/
def cppFieldLine (name : String) (sd : SettingDef) : String :=
  "    " ++ cppFieldBody name sd

/-- The lines emitted for one group by the struct loop of
`generate_cpp_header`: description comment, `struct <Cap>Settings {`,
one field line per setting in insertion order, `};`, blank line. -/
def cppStructLines (p : String × SettingGroup) : List String :=
  ("// " ++ p.2.description)
    :: ("struct " ++ (pyCapitalize p.1 ++ "Settings \x7b"))
    :: (p.2.settings.map (fun q => cppFieldLine q.1 q.2) ++ ["\x7d;", ""])

/-- The validation-limit lines emitted for one setting: nothing when `min`
is absent; when `min` is present the source accesses `setting["max"]`
unconditionally, so a missing `max` raises `KeyError` (modelled as `none`). -/
def cppBoundLines (gname : String) (q : String × SettingDef) :
    Option (List String) :=
  match q.2.min with
  | none => some []
  | some m =>
      match q.2.max with
      | none => none
      | some mx =>
          some
            ["#define " ++ (pyUpper gname ++ "_" ++ pyUpper q.1 ++ "_MIN "
                ++ pyStr m),
             "#define " ++ (pyUpper gname ++ "_" ++ pyUpper q.1 ++ "_MAX "
                ++ pyStr mx)]

/-- The validation-limit lines of one group, concatenated over its settings
in insertion order; `none` as soon as one setting raises. -/
def cppBoundGroup (gname : String) :
    List (String × SettingDef) → Option (List String)
  | [] => some []
  | q :: rest =>
      match cppBoundLines gname q, cppBoundGroup gname rest with
      | some a, some b => some (a ++ b)
      | _, _ => none

/-- The validation-limit lines of the whole schema, concatenated over groups
in insertion order. -/
def cppBoundAll : List (String × SettingGroup) → Option (List String)
  | [] => some []
  | p :: rest =>
      match cppBoundGroup p.1 p.2.settings, cppBoundAll rest with
      | some a, some b => some (a ++ b)
      | _, _ => none

/-- The initial `lines` literal of `generate_cpp_header` (file comment,
include guard, version define). -/
def cppPrefixLines (ts : String) (version : Int) : List String :=
  ["/**",
   " * @file SettingsSchema.h",
   " * @brief Auto-generated settings schema",
   " * @generated " ++ ts,
   " * ",
   " * DO NOT EDIT - Generated by tools/generate_settings.py",
   " */",
   "",
   "#ifndef SUMI_SETTINGS_SCHEMA_H",
   "#define SUMI_SETTINGS_SCHEMA_H",
   "",
   "#include <Arduino.h>",
   "",
   "#define SETTINGS_VERSION " ++ toString version,
   ""]

/-- The `lines` list of `generate_cpp_header`, given the
`datetime.now().isoformat()` text `ts`.  `none` models the `KeyError`
raised when some setting declares `min` but not `max`. -/
def generateCppLines (ts : String) (s : SettingsSchema) :
    Option (List String) :=
  (cppBoundAll s.groups).map (fun bl =>
    cppPrefixLines ts s.version
    ++ s.groups.flatMap cppStructLines
    ++ ("// Validation limits" :: bl)
    ++ ["", "#endif // SUMI_SETTINGS_SCHEMA_H"])

/-- The function `generate_cpp_header` itself: the join of the lines by newlines. -/
def generate_cpp_header (ts : String) (s : SettingsSchema) : Option String :=
  (generateCppLines ts s).map (String.intercalate "\n")

/-! ## `generate_json_schema` (generate_settings.py lines 306–358)

The produced document is embedded as an order-preserving JSON value;
`json.dumps(schema, indent=2)` is a deterministic injective serialization of
this value, so all structural claims are settled on the value itself. -/

/-- Order-preserving JSON values, distinguishing integer and float numbers
exactly as `json.dumps` does. -/
inductive Json
  | jnull
  | jbool (b : Bool)
  | jint (n : Int)
  | jfloat (q : Rat)
  | jstr (s : String)
  | jarr (xs : List Json)
  | jobj (fields : List (String × Json))

/-- Field lookup on a JSON object. -/
def Json.lookup : Json → String → Option Json
  | .jobj fs, k => fs.lookup k
  | _, _ => none

/-- Injection of a schema value into JSON. -/
def toJson : SValue → Json
  | .vint n => .jint n
  | .vfloat q => .jfloat q
  | .vbool b => .jbool b
  | .vstr s => .jstr s

/-- The `prop` dict built for one setting by `generate_json_schema`:
`description` first, then per type tag `type`, `default`, and the optional
`minimum`/`maximum` (numerics) or `maxLength` (strings), in the insertion order of the source. -/
def settingPropFields (sd : SettingDef) : List (String × Json) :=
  ("description", .jstr sd.description)
    :: (match sd.type with
        | .tint =>
            ("type", .jstr "integer") :: ("default", toJson sd.default)
              :: ((sd.min.map (fun m => ("minimum", toJson m))).toList
                  ++ (sd.max.map (fun m => ("maximum", toJson m))).toList)
        | .tfloat =>
            ("type", .jstr "number") :: ("default", toJson sd.default)
              :: ((sd.min.map (fun m => ("minimum", toJson m))).toList
                  ++ (sd.max.map (fun m => ("maximum", toJson m))).toList)
        | .tbool =>
            [("type", .jstr "boolean"), ("default", toJson sd.default)]
        | .tstr =>
            ("type", .jstr "string") :: ("default", toJson sd.default)
              :: (sd.maxLength.map
                    (fun L => ("maxLength", Json.jint L))).toList)

/-- The `group_schema` dict built for one group. -/
def groupSchemaJson (g : SettingGroup) : Json :=
  .jobj
    [("type", .jstr "object"),
     ("description", .jstr g.description),
     ("properties",
       .jobj (g.settings.map (fun q => (q.1, Json.jobj (settingPropFields q.2))))),
     ("additionalProperties", .jbool false)]

/-- The `schema` dict returned (serialized) by `generate_json_schema`. -/
def generate_json_schema (s : SettingsSchema) : Json :=
  .jobj
    [("$schema", .jstr "http://json-schema.org/draft-07/schema#"),
     ("title", .jstr "Sumi Settings"),
     ("description", .jstr "Settings schema for Sumi e-reader firmware"),
     ("type", .jstr "object"),
     ("properties", .jobj (s.groups.map (fun p => (p.1, groupSchemaJson p.2)))),
     ("additionalProperties", .jbool false)]

/-! ## `generate_typescript` (generate_settings.py lines 361–399) -/

/-- The `ts_type` lookup dict of `generate_typescript`. -/
def tsTypeName : SType → String
  | .tint => "number"
  | .tfloat => "number"
  | .tbool => "boolean"
  | .tstr => "string"

/-- The interface name `f"{group_name.capitalize()}Settings"`. -/
def tsInterfaceName (gname : String) : String :=
  pyCapitalize gname ++ "Settings"

/-- The two lines emitted per setting: doc comment and typed field, each with
its common two-space indentation. -/
def tsSettingLines (q : String × SettingDef) : List String :=
  ["  " ++ ("/** " ++ q.2.description ++ " */"),
   "  " ++ (q.1 ++ ": " ++ tsTypeName q.2.type ++ ";")]

/-- The lines emitted for one group interface. -/
def tsGroupLines (p : String × SettingGroup) : List String :=
  ("/** " ++ p.2.description ++ " */")
    :: ("export interface " ++ (tsInterfaceName p.1 ++ " \x7b"))
    :: (p.2.settings.flatMap tsSettingLines ++ ["\x7d", ""])

/-- The field line of one group inside the combined `SumiSettings`
interface. -/
def tsSumiFieldLine (gname : String) : String :=
  "  " ++ (gname ++ ": " ++ tsInterfaceName gname ++ ";")

/-- The initial `lines` literal of `generate_typescript`. -/
def tsPrefixLines (ts : String) : List String :=
  ["/**",
   " * Auto-generated TypeScript interfaces for Sumi settings",
   " * Generated: " ++ ts,
   " */",
   ""]

/-- The `lines` list of `generate_typescript`. -/
def generateTsLines (ts : String) (s : SettingsSchema) : List String :=
  tsPrefixLines ts
  ++ s.groups.flatMap tsGroupLines
  ++ ["/** Complete settings object */", "export interface SumiSettings \x7b"]
  ++ s.groups.map (fun p => tsSumiFieldLine p.1)
  ++ ["\x7d"]

/-- The function `generate_typescript` itself. -/
def generate_typescript (ts : String) (s : SettingsSchema) : String :=
  String.intercalate "\n" (generateTsLines ts s)

/-! ## `generate_markdown` (generate_settings.py lines 402–441) -/

/-- The rendered `Default` cell: Python truthiness decides `true`/`false`
for `bool`-typed settings, otherwise `str(default)`. -/
def mdDefaultStr (sd : SettingDef) : String :=
  if sd.type = .tbool then (if pyTruthy sd.default then "true" else "false")
  else pyStr sd.default

/-- The rendered `Range` cell: `min-max` when both bounds are declared, else
`max N chars` when `maxLength` is declared, else empty. -/
def mdRangeStr (sd : SettingDef) : String :=
  match sd.min, sd.max with
  | some m, some mx => pyStr m ++ "-" ++ pyStr mx
  | _, _ =>
      match sd.maxLength with
      | some L => "max " ++ toString L ++ " chars"
      | none => ""

/-- One documentation table row, minus its common `| \`` lead-in. -/
def mdRowBody (name : String) (sd : SettingDef) : String :=
  name ++ "` | " ++ (match sd.type with
    | .tint => "int" | .tfloat => "float" | .tbool => "bool" | .tstr => "string")
    ++ " | " ++ mdDefaultStr sd ++ " | " ++ mdRangeStr sd ++ " | "
    ++ sd.description ++ " |"

/-- One documentation table row
(f-string `"| \`{setting_name}\` | {type_str} | ..."`). -/
def mdRowLine (name : String) (sd : SettingDef) : String :=
  "| `" ++ mdRowBody name sd

/-- The lines emitted for one group by `generate_markdown`: heading, blank,
description, blank, table header, separator, rows, blank. -/
def mdGroupLines (p : String × SettingGroup) : List String :=
  ("## " ++ pyCapitalize p.1)
    :: ""
    :: p.2.description
    :: ""
    :: "| Setting | Type | Default | Range | Description |"
    :: "|---------|------|---------|-------|-------------|"
    :: (p.2.settings.map (fun q => mdRowLine q.1 q.2) ++ [""])

/-- The initial `lines` literal of `generate_markdown`. -/
def mdPrefixLines (ts : String) (version : Int) : List String :=
  ["# Sumi Settings Reference",
   "",
   "*Auto-generated: " ++ ts ++ "*",
   "",
   "Settings version: " ++ toString version,
   "",
   "---",
   ""]

/-- The `lines` list of `generate_markdown`. -/
def generateMdLines (ts : String) (s : SettingsSchema) : List String :=
  mdPrefixLines ts s.version
  ++ s.groups.flatMap mdGroupLines

/-- The function `generate_markdown` itself. -/
def generate_markdown (ts : String) (s : SettingsSchema) : String :=
  String.intercalate "\n" (generateMdLines ts s)

/-! ## The `SETTINGS_SCHEMA` literal (generate_settings.py lines 28–237) -/

/-- Shorthand for a bounded int setting. -/
def intSetting (d lo hi : Int) (desc : String) : SettingDef :=
  { type := .tint, default := .vint d, min := some (.vint lo),
    max := some (.vint hi), description := desc }

/-- Shorthand for a bool setting. -/
def boolSetting (d : Bool) (desc : String) : SettingDef :=
  { type := .tbool, default := .vbool d, description := desc }

/-- The `weather.location` string setting of the source schema. -/
def locationSetting : SettingDef :=
  { type := .tstr, default := .vstr "New York", maxLength := some 32,
    description := "Location name" }

/-- The `weather` group of the source schema. -/
def weatherGroup : SettingGroup :=
  { description := "Weather widget settings",
    settings :=
      [("latitude",
        { type := .tfloat, default := .vfloat 0,
          min := some (.vfloat (-90)), max := some (.vfloat 90),
          description := "Location latitude" }),
       ("longitude",
        { type := .tfloat, default := .vfloat 0,
          min := some (.vfloat (-180)), max := some (.vfloat 180),
          description := "Location longitude" }),
       ("location", locationSetting),
       ("celsius", boolSetting false "Use Celsius (false=Fahrenheit)"),
       ("updateHours", intSetting 1 1 24 "Hours between updates")] }

/-- The module-scope `SETTINGS_SCHEMA` constant of the source. -/
def SETTINGS_SCHEMA : SettingsSchema :=
  { version := 3,
    groups :=
      [("display",
        { description := "Display and UI settings",
          settings :=
            [("orientation",
              intSetting 1 0 1 "Screen orientation (0=landscape, 1=portrait)"),
             ("sleepMinutes",
              intSetting 15 0 120 "Minutes of inactivity before sleep (0=disabled)"),
             ("fullRefreshPages",
              intSetting 10 0 50 "Pages between full display refreshes"),
             ("buttonShape",
              intSetting 0 0 2 "Home screen button shape (0=rounded, 1=pill, 2=square)"),
             ("bgTheme",
              intSetting 0 0 3 "Background theme (0=light, 1=gray, 2=sepia, 3=dark)"),
             ("showStatusBar", boolSetting true "Show status bar on home screen"),
             ("showBatteryHome", boolSetting true "Show battery indicator on home screen"),
             ("showClockHome", boolSetting true "Show clock on home screen"),
             ("invertColors", boolSetting false "Invert display colors (dark mode)"),
             ("hItemsPerRow", intSetting 4 3 5 "Items per row in landscape mode"),
             ("vItemsPerRow", intSetting 2 2 3 "Items per row in portrait mode")] }),
       ("reader",
        { description := "E-book reader settings",
          settings :=
            [("fontSize", intSetting 18 12 32 "Font size in pixels"),
             ("lineHeight", intSetting 150 100 200 "Line height percentage"),
             ("margins", intSetting 20 5 50 "Page margins in pixels"),
             ("textAlign", intSetting 1 0 1 "Text alignment (0=left, 1=justify)"),
             ("hyphenation", boolSetting true "Enable word hyphenation"),
             ("showProgress", boolSetting true "Show reading progress")] }),
       ("flashcards",
        { description := "Flashcard/SRS settings",
          settings :=
            [("newPerDay", intSetting 20 0 100 "New cards per day"),
             ("reviewLimit", intSetting 200 0 500 "Maximum reviews per day"),
             ("useFsrs", boolSetting true "Use FSRS algorithm"),
             ("shuffle", boolSetting true "Shuffle card order")] }),
       ("weather", weatherGroup),
       ("bluetooth",
        { description := "Bluetooth keyboard settings",
          settings :=
            [("enabled", boolSetting false "Enable Bluetooth"),
             ("autoConnect", boolSetting true "Auto-connect to paired devices"),
             ("keyboardLayout",
              intSetting 0 0 5 "Keyboard layout (0=US, 1=UK, 2=DE, 3=FR, 4=ES, 5=IT)")] })] }

/-- The single group of the round-trip scenario fragment. -/
def miniGroup : SettingGroup :=
  { description := "d",
    settings := [("orientation", intSetting 1 0 1 "x")] }

/-- The one-group schema fragment of the round-trip scenario. -/
def miniSchema : SettingsSchema :=
  { version := 1, groups := [("display", miniGroup)] }

/-- A max-only int setting (declares `max` but not `min`). -/
def c10Setting : SettingDef :=
  { type := .tint, default := .vint 1, max := some (.vint 5),
    description := "g" }

/-- A one-group schema around the max-only setting. -/
def c10Group : SettingGroup :=
  { description := "d", settings := [("gamma", c10Setting)] }

/-! ## Schema validity (spec section 3 invariants) -/

/-- Numeric order on schema values; `false` on non-numeric values. -/
def numLe : SValue → SValue → Bool
  | .vint a, .vint b => decide (a ≤ b)
  | .vint a, .vfloat b => decide ((a : Rat) ≤ b)
  | .vfloat a, .vint b => decide (a ≤ (b : Rat))
  | .vfloat a, .vfloat b => decide (a ≤ b)
  | _, _ => false

/-- The default value carries the declared type tag. -/
def typeOk : SType → SValue → Bool
  | .tint, .vint _ => true
  | .tfloat, .vfloat _ => true
  | .tbool, .vbool _ => true
  | .tstr, .vstr _ => true
  | _, _ => false

/-- Validity of one setting definition: the default matches the type;
numeric settings either declare no `min` or declare both bounds with
`min ≤ default ≤ max`; bool settings declare no bounds; string settings
declare `maxLength ≥ len(default)` and no numeric bounds. -/
def validSettingB (sd : SettingDef) : Bool :=
  typeOk sd.type sd.default &&
  (match sd.type with
   | .tint | .tfloat =>
       sd.maxLength.isNone &&
       (match sd.min, sd.max with
        | none, _ => true
        | some m, some mx => numLe m sd.default && numLe sd.default mx
        | some _, none => false)
   | .tbool => sd.min.isNone && sd.max.isNone && sd.maxLength.isNone
   | .tstr =>
       sd.min.isNone && sd.max.isNone &&
       (match sd.maxLength, sd.default with
        | some L, .vstr d => decide (d.length ≤ L)
        | _, _ => false))

/-- A valid schema: group names unique, setting names unique within each
group, every setting definition valid. -/
def ValidSchema (s : SettingsSchema) : Prop :=
  (s.groups.map Prod.fst).Nodup ∧
  ∀ p ∈ s.groups,
    (p.2.settings.map Prod.fst).Nodup ∧
    ∀ q ∈ p.2.settings, validSettingB q.2 = true

instance (s : SettingsSchema) : Decidable (ValidSchema s) := by
  unfold ValidSchema; infer_instance

/-! ## `portal/build.py` — the asset bundler

A directory is embedded as an association list from file name to contents:
the keys are the files that exist, `Path.exists()` is key membership, and
`read_file` returns the contents of an existing file and `""` otherwise. -/

/-- A directory: file names with their contents. -/
structure Dir where
  files : List (String × String)

/-- build.py `read_file`: file contents when present, else the empty
string. -/
def Dir.read (d : Dir) (name : String) : String :=
  (d.files.lookup name).getD ""

/-- The `CSS_FILES` ordered include list of the source. -/
def CSS_FILES : List String :=
  ["variables.css", "base.css", "layout.css", "components.css", "pages.css",
   "responsive.css"]

/-- The `JS_FILES` ordered include list of the source. -/
def JS_FILES : List String :=
  ["config.js", "api.js", "navigation.js", "toast.js", "status.js",
   "builder.js", "plugins.js", "wifi.js", "files.js", "reader.js",
   "bluetooth.js", "system.js", "settings.js", "main.js"]

/-- The explicit-list loop of `collect_css`: for each listed name in order,
a labeled part when the file exists, otherwise a warning. -/
def cssLoop (dir : Dir) : List String → List String × List String
  | [] => ([], [])
  | n :: rest =>
      let acc := cssLoop dir rest
      match dir.files.lookup n with
      | some c => (("/* === " ++ n ++ " === */\n" ++ c) :: acc.1, acc.2)
      | none => (acc.1, ("Warning: CSS file not found: " ++ n) :: acc.2)

/-- The explicit-list loop of `collect_js`. -/
def jsLoop (dir : Dir) : List String → List String × List String
  | [] => ([], [])
  | n :: rest =>
      let acc := jsLoop dir rest
      match dir.files.lookup n with
      | some c => (("// === " ++ n ++ " ===\n" ++ c) :: acc.1, acc.2)
      | none => (acc.1, ("Warning: JS file not found: " ++ n) :: acc.2)

/-- Insertion into a sorted list of strings (code-point order, as Python
`sorted` over same-directory paths). -/
def insertSorted (s : String) : List String → List String
  | [] => [s]
  | t :: rest => if s ≤ t then s :: t :: rest else t :: insertSorted s rest

/-- Insertion sort over strings, modelling `sorted(...)`. -/
def sortStrings : List String → List String
  | [] => []
  | s :: rest => insertSorted s (sortStrings rest)

/-- The `glob("*.ext")` membership for a file name: the name ends with the
extension. -/
def globSuffix (ext n : String) : Bool :=
  ext.data.isSuffixOf n.data

/-- The trailing loop of `collect_css`: any existing `*.css` file not in the
explicit list, in sorted order. -/
def cssExtras (cssFiles : List String) (dir : Dir) : List String :=
  (sortStrings ((dir.files.map Prod.fst).filter (fun n => globSuffix ".css" n))).filterMap
    (fun n =>
      if cssFiles.contains n then none
      else some ("/* === " ++ n ++ " === */\n" ++ dir.read n))

/-- The trailing loop of `collect_js`. -/
def jsExtras (jsFiles : List String) (dir : Dir) : List String :=
  (sortStrings ((dir.files.map Prod.fst).filter (fun n => globSuffix ".js" n))).filterMap
    (fun n =>
      if jsFiles.contains n then none
      else some ("// === " ++ n ++ " ===\n" ++ dir.read n))

/-- The function `collect_css`, parametrized by the include list (the source uses the
constant `CSS_FILES`): the bundled string and the warnings printed. -/
def collect_css (cssFiles : List String) (dir : Dir) : String × List String :=
  (String.intercalate "\n\n" ((cssLoop dir cssFiles).1 ++ cssExtras cssFiles dir),
   (cssLoop dir cssFiles).2)

/-- The function `collect_js`, parametrized by the include list (the source uses the
constant `JS_FILES`). -/
def collect_js (jsFiles : List String) (dir : Dir) : String × List String :=
  (String.intercalate "\n\n" ((jsLoop dir jsFiles).1 ++ jsExtras jsFiles dir),
   (jsLoop dir jsFiles).2)

/-! ## `tools/redact_screenshots.py` — the screenshot redactor

An image is embedded as a pixel map with its dimensions; a pixel is an RGB
triple.  `ImageDraw.Draw(img).rectangle` with a black fill
paints every pixel with `x0 ≤ x ≤ x1` and `y0 ≤ y ≤ y1` — both corners
inclusive, the documented PIL convention — and coordinates beyond the image
bounds are simply clipped (no pixel of the image has them). -/

/-- A coordinate tuple `(x0, y0, x1, y1)` as passed to
`draw.rectangle`. -/
structure Rect where
  x0 : Nat
  y0 : Nat
  x1 : Nat
  y1 : Nat
  deriving DecidableEq, Repr

/-- An image: dimensions and a pixel map. -/
structure Img where
  width : Nat
  height : Nat
  pix : Nat → Nat → Nat × Nat × Nat

/-- The black fill colour used by every rectangle call. -/
def black : Nat × Nat × Nat := (0, 0, 0)

/-- Membership of a pixel in a rectangle, both corners inclusive. -/
def inRect (r : Rect) (x y : Nat) : Bool :=
  decide (r.x0 ≤ x) && decide (x ≤ r.x1) && decide (r.y0 ≤ y)
    && decide (y ≤ r.y1)

/-- One `draw.rectangle` call with the black fill. -/
def drawRect (img : Img) (r : Rect) : Img :=
  { img with pix := fun x y => if inRect r x y then black else img.pix x y }

/-- The function `redact_image`: draw each area in order over the input image. -/
def redact_image (img : Img) (areas : List Rect) : Img :=
  areas.foldl drawRect img

/-- The `banner_right` preset rectangle. -/
def bannerRight : Rect := ⟨620, 102, 829, 125⟩

/-- The `REDACT_PRESETS` dict of the source. -/
def REDACT_PRESETS : List (String × Rect) :=
  [("banner_right", bannerRight),
   ("wifi_network_1", ⟨207, 633, 310, 660⟩),
   ("wifi_network_2", ⟨207, 678, 310, 705⟩),
   ("banner_ssid", ⟨350, 166, 450, 190⟩),
   ("banner_ip", ⟨580, 166, 680, 190⟩),
   ("connection_ssid", ⟨350, 525, 530, 560⟩),
   ("connection_ip", ⟨370, 690, 475, 720⟩)]

/-- The `__main__` area-collection loop: each named area is looked up in the
preset table; unknown names are logged (`Unknown area: ...`) and skipped. -/
def collectAreas : List String → List Rect × List String
  | [] => ([], [])
  | n :: rest =>
      let acc := collectAreas rest
      match REDACT_PRESETS.lookup n with
      | some r => (r :: acc.1, acc.2)
      | none => (acc.1, ("Unknown area: " ++ n) :: acc.2)

/-- The `__main__` area selection: explicit names go through
`collectAreas`; with no names given the default is the `banner_right`
preset. -/
def mainAreas (names : List String) : List Rect × List String :=
  match names with
  | [] => ([bannerRight], [])
  | _ => collectAreas names

/-! ## Output-shape observers

To state order-preservation claims, the emitted line lists are classified
by their leading characters.  Each generated line starts with a fixed
marker (`struct `, four spaces, `## `, ...) or is a fixed literal, so these
observers recover group and setting order purely from the output. -/

/-- The `i`-th character of a line (a NUL placeholder past the end; no
generated line contains NUL). -/
def charAt (l : String) (i : Nat) : Char :=
  l.data.getD i '\x00'

/-- Lines of the shape `struct <name> {`. -/
def isStructLine (l : String) : Bool :=
  charAt l 0 == 's' && charAt l 1 == 't' && charAt l 2 == 'r'
    && charAt l 3 == 'u' && charAt l 4 == 'c' && charAt l 5 == 't'
    && charAt l 6 == ' '

/-- Lines with the four-space member indentation of the C++ structs. -/
def isFieldLine (l : String) : Bool :=
  charAt l 0 == ' ' && charAt l 1 == ' ' && charAt l 2 == ' '
    && charAt l 3 == ' '

/-- Lines with the two-space member indentation of the TypeScript
interfaces. -/
def isTwoSpaceLine (l : String) : Bool :=
  charAt l 0 == ' ' && charAt l 1 == ' '

/-- Lines of the shape `export interface ... {`. -/
def isExportLine (l : String) : Bool :=
  charAt l 0 == 'e' && charAt l 1 == 'x' && charAt l 2 == 'p'
    && charAt l 3 == 'o' && charAt l 4 == 'r' && charAt l 5 == 't'
    && charAt l 6 == ' '

/-- Markdown setting table rows (they start with a backquoted name cell). -/
def isRowLine (l : String) : Bool :=
  charAt l 0 == '|' && charAt l 1 == ' ' && charAt l 2 == '`'

/-- Markdown group headings. -/
def isHeadingLine (l : String) : Bool :=
  charAt l 0 == '#' && charAt l 1 == '#' && charAt l 2 == ' '

/-- Lookup along a path of object keys in a JSON value. -/
def jsonAt : Json → List String → Option Json
  | j, [] => some j
  | j, k :: ks =>
      match j.lookup k with
      | some j2 => jsonAt j2 ks
      | none => none

/-- The setting names listed under the `properties` key of a JSON object. -/
def jsonPropKeys (j : Json) : List String :=
  match j.lookup "properties" with
  | some (.jobj ps) => ps.map Prod.fst
  | _ => []

/-- The group skeleton of a generated JSON schema: each group name under
`properties` together with its setting names, in document order. -/
def jsonSkeleton (j : Json) : List (String × List String) :=
  match j.lookup "properties" with
  | some (.jobj ps) => ps.map (fun p => (p.1, jsonPropKeys p.2))
  | _ => []

/-! ## General list helper lemmas -/

theorem filter_map_of_false {α β : Type} {p : β → Bool} {f : α → β}
    (h : ∀ a, p (f a) = false) (l : List α) : (l.map f).filter p = [] := by
  induction l with
  | nil => rfl
  | cons a l ih => simp [List.filter, h, ih]

theorem filter_map_of_true {α β : Type} {p : β → Bool} {f : α → β}
    (h : ∀ a, p (f a) = true) (l : List α) : (l.map f).filter p = l.map f := by
  induction l with
  | nil => rfl
  | cons a l ih => simp [List.filter, h, ih]

theorem filter_flatMap_eq {α β : Type} (p : β → Bool) (f : α → List β)
    (l : List α) :
    (l.flatMap f).filter p = l.flatMap (fun a => (f a).filter p) := by
  induction l with
  | nil => rfl
  | cons a l ih => simp [List.flatMap_cons, List.filter_append, ih]

theorem filter_eq_nil_of_all {α : Type} {p : α → Bool} {l : List α}
    (h : ∀ x ∈ l, p x = false) : l.filter p = [] := by
  induction l with
  | nil => rfl
  | cons a l ih =>
      simp [List.filter, h a (List.mem_cons_self a l),
        ih (fun x hx => h x (List.mem_cons_of_mem a hx))]

theorem lookup_map_of_mem {β γ : Type} (l : List (String × β)) (g : β → γ)
    (k : String) (v : β) (h : (k, v) ∈ l)
    (hnd : (l.map Prod.fst).Nodup) :
    (l.map (fun p => (p.1, g p.2))).lookup k = some (g v) := by
  induction l with
  | nil => cases h
  | cons a l ih =>
      simp only [List.map_cons, List.nodup_cons] at hnd
      rcases List.mem_cons.mp h with heq | hmem
      · subst heq
        simp [List.lookup]
      · have hk : a.1 ≠ k := by
          intro hak
          exact hnd.1 (hak ▸ List.mem_map_of_mem Prod.fst hmem)
        have hbeq : (k == a.1) = false := by
          exact beq_eq_false_iff_ne.mpr (fun hkk => hk hkk.symm)
        simp only [List.map_cons, List.lookup, hbeq]
        exact ih hmem hnd.2

/-! ## Helper lemmas about the validation-limit section -/

theorem cppBoundGroup_sub {gname : String} {settings : List (String × SettingDef)}
    {bg : List String} (h : cppBoundGroup gname settings = some bg)
    {q : String × SettingDef} (hq : q ∈ settings) :
    ∃ ls, cppBoundLines gname q = some ls ∧ ∀ x ∈ ls, x ∈ bg := by
  induction settings generalizing bg with
  | nil => cases hq
  | cons a rest ih =>
      rw [cppBoundGroup] at h
      cases h1 : cppBoundLines gname a with
      | none => rw [h1] at h; cases h
      | some la =>
          cases h2 : cppBoundGroup gname rest with
          | none => rw [h1, h2] at h; cases h
          | some lb =>
              rw [h1, h2] at h
              cases h
              rcases List.mem_cons.mp hq with heq | hmem
              · subst heq
                exact ⟨la, h1, fun x hx => List.mem_append_left _ hx⟩
              · rcases ih h2 hmem with ⟨ls, hls, hsub⟩
                exact ⟨ls, hls, fun x hx => List.mem_append_right _ (hsub x hx)⟩

theorem cppBoundAll_sub {groups : List (String × SettingGroup)}
    {bl : List String} (h : cppBoundAll groups = some bl)
    {p : String × SettingGroup} (hp : p ∈ groups) :
    ∃ bg, cppBoundGroup p.1 p.2.settings = some bg ∧ ∀ x ∈ bg, x ∈ bl := by
  induction groups generalizing bl with
  | nil => cases hp
  | cons a rest ih =>
      rw [cppBoundAll] at h
      cases h1 : cppBoundGroup a.1 a.2.settings with
      | none => rw [h1] at h; cases h
      | some la =>
          cases h2 : cppBoundAll rest with
          | none => rw [h1, h2] at h; cases h
          | some lb =>
              rw [h1, h2] at h
              cases h
              rcases List.mem_cons.mp hp with heq | hmem
              · subst heq
                exact ⟨la, h1, fun x hx => List.mem_append_left _ hx⟩
              · rcases ih h2 hmem with ⟨bg, hbg, hsub⟩
                exact ⟨bg, hbg, fun x hx => List.mem_append_right _ (hsub x hx)⟩

theorem cppBoundLines_shape {gname : String} {q : String × SettingDef}
    {ls : List String} (h : cppBoundLines gname q = some ls) :
    ∀ x ∈ ls, ∃ r, x = "#define " ++ r := by
  rw [cppBoundLines] at h
  cases h1 : q.2.min with
  | none => rw [h1] at h; cases h; intro x hx; cases hx
  | some m =>
      cases h2 : q.2.max with
      | none => rw [h1, h2] at h; cases h
      | some mx =>
          rw [h1, h2] at h
          cases h
          intro x hx
          rcases List.mem_cons.mp hx with h3 | h3
          · exact ⟨_, h3⟩
          · rcases List.mem_cons.mp h3 with h4 | h4
            · exact ⟨_, h4⟩
            · cases h4

theorem cppBoundGroup_shape {gname : String}
    {settings : List (String × SettingDef)} {bg : List String}
    (h : cppBoundGroup gname settings = some bg) :
    ∀ x ∈ bg, ∃ r, x = "#define " ++ r := by
  induction settings generalizing bg with
  | nil => rw [cppBoundGroup] at h; cases h; intro x hx; cases hx
  | cons a rest ih =>
      rw [cppBoundGroup] at h
      cases h1 : cppBoundLines gname a with
      | none => rw [h1] at h; cases h
      | some la =>
          cases h2 : cppBoundGroup gname rest with
          | none => rw [h1, h2] at h; cases h
          | some lb =>
              rw [h1, h2] at h
              cases h
              intro x hx
              rcases List.mem_append.mp hx with h3 | h3
              · exact cppBoundLines_shape h1 x h3
              · exact ih h2 x h3

theorem cppBoundAll_shape {groups : List (String × SettingGroup)}
    {bl : List String} (h : cppBoundAll groups = some bl) :
    ∀ x ∈ bl, ∃ r, x = "#define " ++ r := by
  induction groups generalizing bl with
  | nil => rw [cppBoundAll] at h; cases h; intro x hx; cases hx
  | cons a rest ih =>
      rw [cppBoundAll] at h
      cases h1 : cppBoundGroup a.1 a.2.settings with
      | none => rw [h1] at h; cases h
      | some la =>
          cases h2 : cppBoundAll rest with
          | none => rw [h1, h2] at h; cases h
          | some lb =>
              rw [h1, h2] at h
              cases h
              intro x hx
              rcases List.mem_append.mp hx with h3 | h3
              · exact cppBoundGroup_shape h1 x h3
              · exact ih h2 x h3

theorem cppBoundGroup_isSome {gname : String}
    {settings : List (String × SettingDef)}
    (h : ∀ q ∈ settings, q.2.min.isSome → q.2.max.isSome) :
    (cppBoundGroup gname settings).isSome := by
  induction settings with
  | nil => rw [cppBoundGroup]; rfl
  | cons a rest ih =>
      rw [cppBoundGroup]
      have ha : (cppBoundLines gname a).isSome := by
        rw [cppBoundLines]
        cases h1 : a.2.min with
        | none => rfl
        | some m =>
            have := h a (List.mem_cons_self a rest) (by rw [h1]; rfl)
            cases h2 : a.2.max with
            | none => rw [h2] at this; cases this
            | some mx => rfl
      have hrest := ih (fun q hq => h q (List.mem_cons_of_mem a hq))
      cases h1 : cppBoundLines gname a with
      | none => rw [h1] at ha; cases ha
      | some la =>
          cases h2 : cppBoundGroup gname rest with
          | none => rw [h2] at hrest; cases hrest
          | some lb => rfl

theorem cppBoundAll_isSome {groups : List (String × SettingGroup)}
    (h : ∀ p ∈ groups, ∀ q ∈ p.2.settings, q.2.min.isSome → q.2.max.isSome) :
    (cppBoundAll groups).isSome := by
  induction groups with
  | nil => rw [cppBoundAll]; rfl
  | cons a rest ih =>
      rw [cppBoundAll]
      have ha : (cppBoundGroup a.1 a.2.settings).isSome :=
        cppBoundGroup_isSome (h a (List.mem_cons_self a rest))
      have hrest := ih (fun p hp => h p (List.mem_cons_of_mem a hp))
      cases h1 : cppBoundGroup a.1 a.2.settings with
      | none => rw [h1] at ha; cases ha
      | some la =>
          cases h2 : cppBoundAll rest with
          | none => rw [h2] at hrest; cases hrest
          | some lb => rfl

theorem cppBoundGroup_none {gname : String} {q : String × SettingDef}
    {settings : List (String × SettingDef)} (hq : q ∈ settings)
    (h : cppBoundLines gname q = none) :
    cppBoundGroup gname settings = none := by
  induction settings with
  | nil => cases hq
  | cons a rest ih =>
      rw [cppBoundGroup]
      rcases List.mem_cons.mp hq with heq | hmem
      · subst heq; rw [h]
      · rw [ih hmem]
        cases cppBoundLines gname a <;> rfl

theorem cppBoundAll_none {p : String × SettingGroup}
    {groups : List (String × SettingGroup)} (hp : p ∈ groups)
    (h : cppBoundGroup p.1 p.2.settings = none) :
    cppBoundAll groups = none := by
  induction groups with
  | nil => cases hp
  | cons a rest ih =>
      rw [cppBoundAll]
      rcases List.mem_cons.mp hp with heq | hmem
      · subst heq; rw [h]
      · rw [ih hmem]
        cases cppBoundGroup a.1 a.2.settings <;> rfl

/-- Validity facts about a single setting, extracted from `validSettingB`. -/
theorem validSettingB_min_max {sd : SettingDef}
    (h : validSettingB sd = true) (hm : sd.min.isSome) : sd.max.isSome := by
  cases h1 : sd.min with
  | none => rw [h1] at hm; cases hm
  | some m =>
      cases h2 : sd.max with
      | some mx => rfl
      | none =>
          exfalso
          rw [validSettingB] at h
          cases hty : sd.type <;> rw [hty] at h <;> rw [h1, h2] at h <;>
            simp at h

theorem validity_min_max {s : SettingsSchema} (hs : ValidSchema s) :
    ∀ p ∈ s.groups, ∀ q ∈ p.2.settings, q.2.min.isSome → q.2.max.isSome :=
  fun p hp q hq hm => validSettingB_min_max ((hs.2 p hp).2 q hq) hm

/-! ## C1 — determinism of the four projections -/

/-- C1: each of the four projections is a pure function of the schema and
the embedded generation timestamp: replacing the unique timestamp line of
an output produced at time `t₁` with the timestamp line for `t₂` yields
exactly the output produced at `t₂` (the JSON projection embeds no
timestamp at all, so its outputs coincide outright). -/
theorem projections_deterministic_mod_timestamp (s : SettingsSchema)
    (t₁ t₂ : String) :
    (generateCppLines t₁ s).map (fun L => L.set 3 (" * @generated " ++ t₂))
        = generateCppLines t₂ s ∧
    (generateTsLines t₁ s).set 2 (" * Generated: " ++ t₂)
        = generateTsLines t₂ s ∧
    (generateMdLines t₁ s).set 2 ("*Auto-generated: " ++ t₂ ++ "*")
        = generateMdLines t₂ s ∧
    generate_json_schema s = generate_json_schema s := by
  refine ⟨?_, rfl, rfl, rfl⟩
  unfold generateCppLines
  cases cppBoundAll s.groups <;> rfl

/-! ## C2 — the round-trip scenario on the one-group schema fragment -/

/-- C2: on the schema fragment with a single group `display` holding the
single bounded int setting `orientation`, the firmware header contains the
`DisplaySettings` record with `int orientation = 1` and the
`DISPLAY_ORIENTATION_MIN`/`_MAX` constants 0 and 1, the validation schema
assigns `display.orientation` `minimum` 0, `maximum` 1, `default` 1, and
the documentation contains the row `orientation | int | 1 | 0-1 | x`. -/
theorem roundtrip_mini (ts : String) :
    (∃ L, generateCppLines ts miniSchema = some L ∧
      "struct DisplaySettings \x7b" ∈ L ∧
      "    int orientation = 1;  // x" ∈ L ∧
      "#define DISPLAY_ORIENTATION_MIN 0" ∈ L ∧
      "#define DISPLAY_ORIENTATION_MAX 1" ∈ L) ∧
    jsonAt (generate_json_schema miniSchema)
        ["properties", "display", "properties", "orientation", "minimum"]
      = some (.jint 0) ∧
    jsonAt (generate_json_schema miniSchema)
        ["properties", "display", "properties", "orientation", "maximum"]
      = some (.jint 1) ∧
    jsonAt (generate_json_schema miniSchema)
        ["properties", "display", "properties", "orientation", "default"]
      = some (.jint 1) ∧
    "| `orientation` | int | 1 | 0-1 | x |" ∈ generateMdLines ts miniSchema := by
  have hL : generateCppLines ts miniSchema
      = some (cppPrefixLines ts 1 ++
          ["// d", "struct DisplaySettings \x7b",
           "    int orientation = 1;  // x", "\x7d;", "",
           "// Validation limits", "#define DISPLAY_ORIENTATION_MIN 0",
           "#define DISPLAY_ORIENTATION_MAX 1", "",
           "#endif // SUMI_SETTINGS_SCHEMA_H"]) := rfl
  have hM : generateMdLines ts miniSchema
      = mdPrefixLines ts 1 ++
          ["## Display", "", "d", "",
           "| Setting | Type | Default | Range | Description |",
           "|---------|------|---------|-------|-------------|",
           "| `orientation` | int | 1 | 0-1 | x |", ""] := rfl
  refine ⟨⟨_, hL, ?_, ?_, ?_, ?_⟩, rfl, rfl, rfl, ?_⟩
  · exact List.mem_append_right _ (by decide)
  · exact List.mem_append_right _ (by decide)
  · exact List.mem_append_right _ (by decide)
  · exact List.mem_append_right _ (by decide)
  · rw [hM]
    exact List.mem_append_right _ (by decide)

/-! ## Helper lemmas shared by C3, C4, C10 -/

theorem validSettingB_bounds {sd : SettingDef} {m mx : SValue}
    (h : validSettingB sd = true) (hm : sd.min = some m)
    (hmx : sd.max = some mx) :
    numLe m sd.default = true ∧ numLe sd.default mx = true := by
  rw [validSettingB] at h
  cases hty : sd.type <;> rw [hty] at h <;> rw [hm] at h <;>
    simp only [Option.isNone_some, Bool.false_and, Bool.and_false] at h
  · rw [hmx] at h
    simp only [Bool.and_eq_true] at h
    exact ⟨h.2.2.1, h.2.2.2⟩
  · rw [hmx] at h
    simp only [Bool.and_eq_true] at h
    exact ⟨h.2.2.1, h.2.2.2⟩
  · exact Bool.noConfusion h
  · exact Bool.noConfusion h

theorem validSettingB_numeric {sd : SettingDef}
    (h : validSettingB sd = true) (hm : sd.min.isSome) :
    sd.type = .tint ∨ sd.type = .tfloat := by
  cases h1 : sd.min with
  | none => rw [h1] at hm; cases hm
  | some m =>
      rw [validSettingB] at h
      cases hty : sd.type <;> rw [hty] at h <;> rw [h1] at h
      · exact Or.inl rfl
      · exact Or.inr rfl
      · simp at h
      · simp at h

/-- Membership in the emitted header lines via the validation-limit
section. -/
theorem mem_generateCpp_bound {ts : String} {s : SettingsSchema}
    {bl : List String} (hbl : cppBoundAll s.groups = some bl) {x : String}
    (hx : x ∈ bl) {L : List String} (hL : generateCppLines ts s = some L) :
    x ∈ L := by
  rw [generateCppLines, hbl, Option.map_some'] at hL
  cases hL
  exact List.mem_append_left _ (List.mem_append_right _
    (List.mem_cons_of_mem _ hx))

/-- Membership in the emitted header lines via the struct block of a group. -/
theorem mem_generateCpp_struct {ts : String} {s : SettingsSchema}
    {p : String × SettingGroup} (hp : p ∈ s.groups) {x : String}
    (hx : x ∈ cppStructLines p) {L : List String}
    (hL : generateCppLines ts s = some L) : x ∈ L := by
  rcases Option.map_eq_some'.mp hL with ⟨bl, _, rfl⟩
  exact List.mem_append_left _ (List.mem_append_left _
    (List.mem_append_right _ (List.mem_flatMap.mpr ⟨p, hp, hx⟩)))

/-- Navigation to the property object of one setting inside the generated
validation schema. -/
theorem jsonAt_setting {s : SettingsSchema} {gname : String}
    {g : SettingGroup} {sname : String} {sd : SettingDef}
    (hs : ValidSchema s) (hg : (gname, g) ∈ s.groups)
    (hsd : (sname, sd) ∈ g.settings) (ks : List String) :
    jsonAt (generate_json_schema s)
        ("properties" :: gname :: "properties" :: sname :: ks)
      = jsonAt (Json.jobj (settingPropFields sd)) ks := by
  have h2 : (Json.jobj (s.groups.map (fun p => (p.1, groupSchemaJson p.2)))).lookup
      gname = some (groupSchemaJson g) :=
    lookup_map_of_mem s.groups groupSchemaJson gname g hg hs.1
  have h4 : (Json.jobj (g.settings.map
      (fun q => (q.1, Json.jobj (settingPropFields q.2))))).lookup sname
      = some (Json.jobj (settingPropFields sd)) :=
    lookup_map_of_mem g.settings (fun v => Json.jobj (settingPropFields v))
      sname sd hsd (hs.2 _ hg).1
  have h1 : (generate_json_schema s).lookup "properties"
      = some (.jobj (s.groups.map (fun p => (p.1, groupSchemaJson p.2)))) := rfl
  have h3 : (groupSchemaJson g).lookup "properties"
      = some (.jobj (g.settings.map
          (fun q => (q.1, Json.jobj (settingPropFields q.2))))) := rfl
  simp only [jsonAt, h1, h2, h3, h4]

theorem settingProp_lookup_min {sd : SettingDef} {m : SValue}
    (hnum : sd.type = .tint ∨ sd.type = .tfloat) (hm : sd.min = some m) :
    (Json.jobj (settingPropFields sd)).lookup "minimum" = some (toJson m) := by
  obtain ⟨ty, d, mn, mxo, ml, desc⟩ := sd
  cases hm
  rcases hnum with h | h <;> cases h <;> rfl

theorem settingProp_lookup_max {sd : SettingDef} {mx : SValue}
    (hnum : sd.type = .tint ∨ sd.type = .tfloat) (hmx : sd.max = some mx) :
    (Json.jobj (settingPropFields sd)).lookup "maximum" = some (toJson mx) := by
  obtain ⟨ty, d, mn, mxo, ml, desc⟩ := sd
  cases hmx
  rcases hnum with h | h <;> cases h <;> cases mn <;> rfl

/-! ## C3 — bound constants bracket the default and agree with the
validation schema -/

/-- C3: for every setting of a valid schema declaring both `min` and `max`,
the firmware header contains the `<GROUP>_<SETTING>_MIN`/`_MAX` constants
carrying exactly those bounds, the bounds bracket the default
(`min ≤ default ≤ max`), and the validation schema carries the same numeric
values as `minimum`/`maximum` of that setting. -/
theorem bound_constants_bracket_default (s : SettingsSchema)
    (hs : ValidSchema s) (gname : String) (g : SettingGroup)
    (hg : (gname, g) ∈ s.groups) (sname : String) (sd : SettingDef)
    (hsd : (sname, sd) ∈ g.settings) (m mx : SValue)
    (hm : sd.min = some m) (hmx : sd.max = some mx) (ts : String) :
    (∃ L, generateCppLines ts s = some L ∧
      ("#define " ++ (pyUpper gname ++ "_" ++ pyUpper sname ++ "_MIN "
        ++ pyStr m)) ∈ L ∧
      ("#define " ++ (pyUpper gname ++ "_" ++ pyUpper sname ++ "_MAX "
        ++ pyStr mx)) ∈ L) ∧
    numLe m sd.default = true ∧ numLe sd.default mx = true ∧
    jsonAt (generate_json_schema s)
        ["properties", gname, "properties", sname, "minimum"]
      = some (toJson m) ∧
    jsonAt (generate_json_schema s)
        ["properties", gname, "properties", sname, "maximum"]
      = some (toJson mx) := by
  have hv : validSettingB sd = true := (hs.2 _ hg).2 _ hsd
  have hnum := validSettingB_numeric hv (by rw [hm]; rfl)
  have hbounds := validSettingB_bounds hv hm hmx
  obtain ⟨bl, hbl⟩ :=
    Option.isSome_iff_exists.mp (cppBoundAll_isSome (validity_min_max hs))
  obtain ⟨bg, hbg, hsubg⟩ := cppBoundAll_sub hbl hg
  obtain ⟨ls, hls, hsubl⟩ := cppBoundGroup_sub hbg hsd
  have hcomp : cppBoundLines gname (sname, sd) = some
      ["#define " ++ (pyUpper gname ++ "_" ++ pyUpper sname ++ "_MIN "
        ++ pyStr m),
       "#define " ++ (pyUpper gname ++ "_" ++ pyUpper sname ++ "_MAX "
        ++ pyStr mx)] := by
    simp only [cppBoundLines, hm, hmx]
  have hlseq := Option.some.inj (hls.symm.trans hcomp)
  subst hlseq
  have hL : generateCppLines ts s = some (cppPrefixLines ts s.version
      ++ s.groups.flatMap cppStructLines
      ++ ("// Validation limits" :: bl)
      ++ ["", "#endif // SUMI_SETTINGS_SCHEMA_H"]) := by
    rw [generateCppLines, hbl, Option.map_some']
  refine ⟨⟨_, hL, ?_, ?_⟩, hbounds.1, hbounds.2, ?_, ?_⟩
  · exact mem_generateCpp_bound hbl
      (hsubg _ (hsubl _ (List.mem_cons_self _ _))) hL
  · exact mem_generateCpp_bound hbl
      (hsubg _ (hsubl _ (List.mem_cons_of_mem _ (List.mem_cons_self _ _)))) hL
  · rw [jsonAt_setting hs hg hsd, jsonAt, settingProp_lookup_min hnum hm]
    rfl
  · rw [jsonAt_setting hs hg hsd, jsonAt, settingProp_lookup_max hnum hmx]
    rfl

/-- Witness for C3 at the round-trip fragment: the hypotheses hold for the
`display.orientation` setting and the conclusion follows by applying the
theorem there. -/
theorem bound_constants_bracket_default_witness :
    ValidSchema miniSchema ∧
    (("display", miniGroup) ∈ miniSchema.groups ∧
     ("orientation", intSetting 1 0 1 "x") ∈ miniGroup.settings) ∧
    ((∃ L, generateCppLines "T" miniSchema = some L ∧
      ("#define " ++ (pyUpper "display" ++ "_" ++ pyUpper "orientation"
        ++ "_MIN " ++ pyStr (.vint 0))) ∈ L ∧
      ("#define " ++ (pyUpper "display" ++ "_" ++ pyUpper "orientation"
        ++ "_MAX " ++ pyStr (.vint 1))) ∈ L) ∧
    numLe (.vint 0) (intSetting 1 0 1 "x").default = true ∧
    numLe (intSetting 1 0 1 "x").default (.vint 1) = true ∧
    jsonAt (generate_json_schema miniSchema)
        ["properties", "display", "properties", "orientation", "minimum"]
      = some (toJson (.vint 0)) ∧
    jsonAt (generate_json_schema miniSchema)
        ["properties", "display", "properties", "orientation", "maximum"]
      = some (toJson (.vint 1))) :=
  ⟨by decide, ⟨by decide, by decide⟩,
   bound_constants_bracket_default miniSchema (by decide) "display" miniGroup
     (by decide) "orientation" (intSetting 1 0 1 "x") (by decide)
     (.vint 0) (.vint 1) rfl rfl "T"⟩

/-! ## C4 — string buffers are sized to exactly `maxLength` -/

/-- C4: for every string setting of a valid schema declaring `maxLength`,
the firmware header declares a `char` buffer field of size exactly
`maxLength` (no extra terminator slot), and the schema invariant gives
`len(default) ≤ maxLength`. -/
theorem string_buffer_sized_to_maxLength (s : SettingsSchema)
    (hs : ValidSchema s) (gname : String) (g : SettingGroup)
    (hg : (gname, g) ∈ s.groups) (sname : String) (sd : SettingDef)
    (hsd : (sname, sd) ∈ g.settings) (n : Nat)
    (hty : sd.type = .tstr) (hn : sd.maxLength = some n) (ts : String) :
    cppFieldLine sname sd
      = "    char " ++ sname ++ "[" ++ toString n ++ "];  // "
        ++ sd.description ∧
    (∃ L, generateCppLines ts s = some L ∧ cppFieldLine sname sd ∈ L) ∧
    (∃ d, sd.default = .vstr d ∧ d.length ≤ n) := by
  have hv : validSettingB sd = true := (hs.2 _ hg).2 _ hsd
  obtain ⟨bl, hbl⟩ :=
    Option.isSome_iff_exists.mp (cppBoundAll_isSome (validity_min_max hs))
  have hL : generateCppLines ts s = some (cppPrefixLines ts s.version
      ++ s.groups.flatMap cppStructLines
      ++ ("// Validation limits" :: bl)
      ++ ["", "#endif // SUMI_SETTINGS_SCHEMA_H"]) := by
    rw [generateCppLines, hbl, Option.map_some']
  refine ⟨?_, ⟨_, hL, ?_⟩, ?_⟩
  · rw [cppFieldLine, cppFieldBody, hty, hn]
    rfl
  · refine mem_generateCpp_struct hg ?_ hL
    rw [cppStructLines]
    exact List.mem_cons_of_mem _ (List.mem_cons_of_mem _
      (List.mem_append_left _
        (List.mem_map_of_mem (fun q => cppFieldLine q.1 q.2) hsd)))
  · rw [validSettingB, hty] at hv
    cases hd : sd.default with
    | vstr d =>
        rw [hd] at hv
        rw [hn] at hv
        simp only [Bool.and_eq_true, decide_eq_true_eq] at hv
        exact ⟨d, rfl, hv.2.2⟩
    | vint k => rw [hd] at hv; simp [typeOk] at hv
    | vfloat q => rw [hd] at hv; simp [typeOk] at hv
    | vbool b => rw [hd] at hv; simp [typeOk] at hv

/-- Witness for C4 at the `weather.location` setting of the source schema. -/
theorem string_buffer_sized_to_maxLength_witness :
    ValidSchema SETTINGS_SCHEMA ∧
    ((cppFieldLine "location" locationSetting
      = "    char " ++ "location" ++ "[" ++ toString 32 ++ "];  // "
        ++ "Location name") ∧
    (∃ L, generateCppLines "T" SETTINGS_SCHEMA = some L ∧
      cppFieldLine "location" locationSetting ∈ L) ∧
    (∃ d, locationSetting.default = .vstr d ∧ d.length ≤ 32)) :=
  ⟨by decide,
   string_buffer_sized_to_maxLength SETTINGS_SCHEMA (by decide)
     "weather" weatherGroup (by decide) "location" locationSetting
     (by decide) 32 rfl rfl "T"⟩

/-! ## C5 — shape and type mapping of the validation schema -/

theorem map_fst_label {β γ : Type} (l : List (String × β)) (g : β → γ) :
    (l.map (fun p => (p.1, g p.2))).map Prod.fst = l.map Prod.fst := by
  induction l <;> simp [*]

/-- C5: the validation schema is a closed-world nested object document —
the top level is an object with exactly one property per group and
`additionalProperties: false`; each group is an object with exactly one
property per setting and `additionalProperties: false`; each setting
carries `description` and `default`, its `type` under the mapping
int→integer, float→number, bool→boolean, string→string, `minimum`/
`maximum` for bounded numerics and `maxLength` for strings. -/
theorem json_schema_closed_world (s : SettingsSchema) (gname : String)
    (g : SettingGroup) (hg : (gname, g) ∈ s.groups) (sname : String)
    (sd : SettingDef) (hsd : (sname, sd) ∈ g.settings) :
    (generate_json_schema s).lookup "type" = some (.jstr "object") ∧
    (generate_json_schema s).lookup "additionalProperties"
      = some (.jbool false) ∧
    (generate_json_schema s).lookup "properties"
      = some (.jobj (s.groups.map (fun p => (p.1, groupSchemaJson p.2)))) ∧
    (s.groups.map (fun p => (p.1, groupSchemaJson p.2))).map Prod.fst
      = s.groups.map Prod.fst ∧
    (gname, groupSchemaJson g)
      ∈ s.groups.map (fun p => (p.1, groupSchemaJson p.2)) ∧
    (groupSchemaJson g).lookup "type" = some (.jstr "object") ∧
    (groupSchemaJson g).lookup "description" = some (.jstr g.description) ∧
    (groupSchemaJson g).lookup "additionalProperties"
      = some (.jbool false) ∧
    (groupSchemaJson g).lookup "properties"
      = some (.jobj (g.settings.map
          (fun q => (q.1, Json.jobj (settingPropFields q.2))))) ∧
    (g.settings.map (fun q => (q.1, Json.jobj (settingPropFields q.2)))).map
        Prod.fst = g.settings.map Prod.fst ∧
    (sname, Json.jobj (settingPropFields sd))
      ∈ g.settings.map (fun q => (q.1, Json.jobj (settingPropFields q.2))) ∧
    (Json.jobj (settingPropFields sd)).lookup "description"
      = some (.jstr sd.description) ∧
    (Json.jobj (settingPropFields sd)).lookup "default"
      = some (toJson sd.default) ∧
    (sd.type = .tint → (Json.jobj (settingPropFields sd)).lookup "type"
      = some (.jstr "integer")) ∧
    (sd.type = .tfloat → (Json.jobj (settingPropFields sd)).lookup "type"
      = some (.jstr "number")) ∧
    (sd.type = .tbool → (Json.jobj (settingPropFields sd)).lookup "type"
      = some (.jstr "boolean")) ∧
    (sd.type = .tstr → (Json.jobj (settingPropFields sd)).lookup "type"
      = some (.jstr "string")) ∧
    (∀ m, sd.min = some m → sd.type = .tint ∨ sd.type = .tfloat →
      (Json.jobj (settingPropFields sd)).lookup "minimum"
        = some (toJson m)) ∧
    (∀ mx, sd.max = some mx → sd.type = .tint ∨ sd.type = .tfloat →
      (Json.jobj (settingPropFields sd)).lookup "maximum"
        = some (toJson mx)) ∧
    (∀ n, sd.maxLength = some n → sd.type = .tstr →
      (Json.jobj (settingPropFields sd)).lookup "maxLength"
        = some (.jint n)) := by
  obtain ⟨ty, d, mn, mxo, ml, desc⟩ := sd
  refine ⟨rfl, rfl, rfl, map_fst_label s.groups groupSchemaJson,
    List.mem_map_of_mem _ hg, rfl, rfl, rfl, rfl,
    map_fst_label g.settings (fun v => Json.jobj (settingPropFields v)),
    List.mem_map_of_mem _ hsd, ?_, ?_, ?_, ?_, ?_, ?_, ?_, ?_, ?_⟩
  · cases ty <;> rfl
  · cases ty <;> rfl
  · intro h; cases h; rfl
  · intro h; cases h; rfl
  · intro h; cases h; rfl
  · intro h; cases h; rfl
  · intro m hm hnum
    cases hm
    rcases hnum with h | h <;> cases h <;> rfl
  · intro mx hmx hnum
    cases hmx
    rcases hnum with h | h <;> cases h <;> cases mn <;> rfl
  · intro n hn hty
    cases hn; cases hty; rfl

/-- Witness for C5 at the `display.orientation` setting of the round-trip
fragment. -/
theorem json_schema_closed_world_witness :
    (("display", miniGroup) ∈ miniSchema.groups ∧
     ("orientation", intSetting 1 0 1 "x") ∈ miniGroup.settings) ∧
    ((generate_json_schema miniSchema).lookup "type"
      = some (.jstr "object") ∧
    (generate_json_schema miniSchema).lookup "additionalProperties"
      = some (.jbool false) ∧
    (generate_json_schema miniSchema).lookup "properties"
      = some (.jobj (miniSchema.groups.map
          (fun p => (p.1, groupSchemaJson p.2)))) ∧
    (miniSchema.groups.map (fun p => (p.1, groupSchemaJson p.2))).map
        Prod.fst = miniSchema.groups.map Prod.fst ∧
    ("display", groupSchemaJson miniGroup)
      ∈ miniSchema.groups.map (fun p => (p.1, groupSchemaJson p.2)) ∧
    (groupSchemaJson miniGroup).lookup "type" = some (.jstr "object") ∧
    (groupSchemaJson miniGroup).lookup "description"
      = some (.jstr miniGroup.description) ∧
    (groupSchemaJson miniGroup).lookup "additionalProperties"
      = some (.jbool false) ∧
    (groupSchemaJson miniGroup).lookup "properties"
      = some (.jobj (miniGroup.settings.map
          (fun q => (q.1, Json.jobj (settingPropFields q.2))))) ∧
    (miniGroup.settings.map
        (fun q => (q.1, Json.jobj (settingPropFields q.2)))).map Prod.fst
      = miniGroup.settings.map Prod.fst ∧
    ("orientation", Json.jobj (settingPropFields (intSetting 1 0 1 "x")))
      ∈ miniGroup.settings.map
          (fun q => (q.1, Json.jobj (settingPropFields q.2))) ∧
    (Json.jobj (settingPropFields (intSetting 1 0 1 "x"))).lookup
        "description" = some (.jstr (intSetting 1 0 1 "x").description) ∧
    (Json.jobj (settingPropFields (intSetting 1 0 1 "x"))).lookup "default"
      = some (toJson (intSetting 1 0 1 "x").default) ∧
    ((intSetting 1 0 1 "x").type = .tint →
      (Json.jobj (settingPropFields (intSetting 1 0 1 "x"))).lookup "type"
        = some (.jstr "integer")) ∧
    ((intSetting 1 0 1 "x").type = .tfloat →
      (Json.jobj (settingPropFields (intSetting 1 0 1 "x"))).lookup "type"
        = some (.jstr "number")) ∧
    ((intSetting 1 0 1 "x").type = .tbool →
      (Json.jobj (settingPropFields (intSetting 1 0 1 "x"))).lookup "type"
        = some (.jstr "boolean")) ∧
    ((intSetting 1 0 1 "x").type = .tstr →
      (Json.jobj (settingPropFields (intSetting 1 0 1 "x"))).lookup "type"
        = some (.jstr "string")) ∧
    (∀ m, (intSetting 1 0 1 "x").min = some m →
      (intSetting 1 0 1 "x").type = .tint ∨
        (intSetting 1 0 1 "x").type = .tfloat →
      (Json.jobj (settingPropFields (intSetting 1 0 1 "x"))).lookup
          "minimum" = some (toJson m)) ∧
    (∀ mx, (intSetting 1 0 1 "x").max = some mx →
      (intSetting 1 0 1 "x").type = .tint ∨
        (intSetting 1 0 1 "x").type = .tfloat →
      (Json.jobj (settingPropFields (intSetting 1 0 1 "x"))).lookup
          "maximum" = some (toJson mx)) ∧
    (∀ n, (intSetting 1 0 1 "x").maxLength = some n →
      (intSetting 1 0 1 "x").type = .tstr →
      (Json.jobj (settingPropFields (intSetting 1 0 1 "x"))).lookup
          "maxLength" = some (.jint n))) :=
  ⟨⟨by decide, by decide⟩,
   json_schema_closed_world miniSchema "display" miniGroup (by decide)
     "orientation" (intSetting 1 0 1 "x") (by decide)⟩

/-! ## C7 — the asset bundler skips missing listed files with a warning -/

theorem filterMap_eq_nil_of_all {α β : Type} {f : α → Option β}
    {l : List α} (h : ∀ x ∈ l, f x = none) : l.filterMap f = [] := by
  induction l with
  | nil => rfl
  | cons a rest ih =>
      rw [List.filterMap_cons, h a (List.mem_cons_self a rest)]
      exact ih (fun x hx => h x (List.mem_cons_of_mem a hx))

theorem mem_insertSorted {s x : String} {l : List String} :
    x ∈ insertSorted s l ↔ x = s ∨ x ∈ l := by
  induction l with
  | nil => simp [insertSorted]
  | cons t rest ih =>
      rw [insertSorted]
      by_cases h : s ≤ t
      · simp [h]
      · simp only [if_neg h, List.mem_cons, ih]
        tauto

theorem mem_sortStrings {x : String} {l : List String} :
    x ∈ sortStrings l ↔ x ∈ l := by
  induction l with
  | nil => simp [sortStrings]
  | cons t rest ih => rw [sortStrings]; simp [mem_insertSorted, ih]

theorem cssLoop_eq (dir : Dir) (l : List String) :
    cssLoop dir l
      = (l.filterMap (fun n => (dir.files.lookup n).map
            (fun c => "/* === " ++ n ++ " === */\n" ++ c)),
         l.filterMap (fun n =>
            match dir.files.lookup n with
            | some _ => none
            | none => some ("Warning: CSS file not found: " ++ n))) := by
  induction l with
  | nil => rfl
  | cons n rest ih =>
      cases h : dir.files.lookup n <;>
        simp [cssLoop, h, ih, List.filterMap_cons]

theorem jsLoop_eq (dir : Dir) (l : List String) :
    jsLoop dir l
      = (l.filterMap (fun n => (dir.files.lookup n).map
            (fun c => "// === " ++ n ++ " ===\n" ++ c)),
         l.filterMap (fun n =>
            match dir.files.lookup n with
            | some _ => none
            | none => some ("Warning: JS file not found: " ++ n))) := by
  induction l with
  | nil => rfl
  | cons n rest ih =>
      cases h : dir.files.lookup n <;>
        simp [jsLoop, h, ih, List.filterMap_cons]

theorem cssExtras_eq_nil {cssFiles : List String} {dir : Dir}
    (h : ∀ n ∈ dir.files.map Prod.fst, n ∈ cssFiles) :
    cssExtras cssFiles dir = [] := by
  rw [cssExtras]
  refine filterMap_eq_nil_of_all (fun n hn => ?_)
  have hmem : n ∈ cssFiles :=
    h n (List.mem_filter.mp (mem_sortStrings.mp hn)).1
  rw [if_pos (List.elem_eq_true_of_mem hmem)]

theorem jsExtras_eq_nil {jsFiles : List String} {dir : Dir}
    (h : ∀ n ∈ dir.files.map Prod.fst, n ∈ jsFiles) :
    jsExtras jsFiles dir = [] := by
  rw [jsExtras]
  refine filterMap_eq_nil_of_all (fun n hn => ?_)
  have hmem : n ∈ jsFiles :=
    h n (List.mem_filter.mp (mem_sortStrings.mp hn)).1
  rw [if_pos (List.elem_eq_true_of_mem hmem)]

/-- C7: when a file named in the ordered include list is absent, the
bundler records a warning for it and produces exactly the concatenation of
the present listed files in list order, each preceded by its own labeled
comment boundary (the directories are assumed to hold only listed files, as
in the scenario — extra files would be appended after the listed ones). -/
theorem bundler_missing_input (cssFiles jsFiles : List String)
    (cdir jdir : Dir) (f g : String)
    (hcs : ∀ n ∈ cdir.files.map Prod.fst, n ∈ cssFiles)
    (hjs : ∀ n ∈ jdir.files.map Prod.fst, n ∈ jsFiles)
    (hfl : f ∈ cssFiles) (hfm : cdir.files.lookup f = none)
    (hgl : g ∈ jsFiles) (hgm : jdir.files.lookup g = none) :
    (collect_css cssFiles cdir).1
      = String.intercalate "\n\n" (cssFiles.filterMap (fun n =>
          (cdir.files.lookup n).map
            (fun c => "/* === " ++ n ++ " === */\n" ++ c))) ∧
    ("Warning: CSS file not found: " ++ f) ∈ (collect_css cssFiles cdir).2 ∧
    (collect_js jsFiles jdir).1
      = String.intercalate "\n\n" (jsFiles.filterMap (fun n =>
          (jdir.files.lookup n).map
            (fun c => "// === " ++ n ++ " ===\n" ++ c))) ∧
    ("Warning: JS file not found: " ++ g) ∈ (collect_js jsFiles jdir).2 := by
  refine ⟨?_, ?_, ?_, ?_⟩
  · rw [collect_css, cssLoop_eq, cssExtras_eq_nil hcs]
    simp
  · rw [collect_css, cssLoop_eq]
    exact List.mem_filterMap.mpr ⟨f, hfl, by rw [hfm]⟩
  · rw [collect_js, jsLoop_eq, jsExtras_eq_nil hjs]
    simp
  · rw [collect_js, jsLoop_eq]
    exact List.mem_filterMap.mpr ⟨g, hgl, by rw [hgm]⟩

/-- Witness for C7: a two-file CSS list with `b.css` absent and a one-file
JS list with `c.js` absent. -/
theorem bundler_missing_input_witness :
    (∀ n ∈ (Dir.mk [("a.css", "A")]).files.map Prod.fst,
        n ∈ ["a.css", "b.css"]) ∧
    (∀ n ∈ (Dir.mk ([] : List (String × String))).files.map Prod.fst,
        n ∈ ["c.js"]) ∧
    "b.css" ∈ ["a.css", "b.css"] ∧
    (Dir.mk [("a.css", "A")]).files.lookup "b.css" = none ∧
    "c.js" ∈ ["c.js"] ∧
    (Dir.mk ([] : List (String × String))).files.lookup "c.js" = none ∧
    ((collect_css ["a.css", "b.css"] (Dir.mk [("a.css", "A")])).1
      = String.intercalate "\n\n" (["a.css", "b.css"].filterMap (fun n =>
          ((Dir.mk [("a.css", "A")]).files.lookup n).map
            (fun c => "/* === " ++ n ++ " === */\n" ++ c))) ∧
    ("Warning: CSS file not found: " ++ "b.css")
      ∈ (collect_css ["a.css", "b.css"] (Dir.mk [("a.css", "A")])).2 ∧
    (collect_js ["c.js"] (Dir.mk ([] : List (String × String)))).1
      = String.intercalate "\n\n" (["c.js"].filterMap (fun n =>
          ((Dir.mk ([] : List (String × String))).files.lookup n).map
            (fun c => "// === " ++ n ++ " ===\n" ++ c))) ∧
    ("Warning: JS file not found: " ++ "c.js")
      ∈ (collect_js ["c.js"] (Dir.mk ([] : List (String × String)))).2) :=
  ⟨by decide, by decide, by decide, rfl, by decide, rfl,
   bundler_missing_input ["a.css", "b.css"] ["c.js"]
     (Dir.mk [("a.css", "A")]) (Dir.mk []) "b.css" "c.js"
     (by decide) (by decide) (by decide) rfl (by decide) rfl⟩

/-! ## C8 — the banner_right preset blacks out exactly its rectangle -/

/-- C8: redacting an 829×1567 image with the `banner_right` preset leaves
every pixel outside the rectangle (620,102)–(829,125) untouched and sets
every pixel inside it (both corners inclusive per the PIL fill convention, the
out-of-range column 829 clipped by the image bounds) to black. -/
theorem redact_banner_right_preset (img : Img) (hw : img.width = 829)
    (hh : img.height = 1567) (r : Rect)
    (hr : REDACT_PRESETS.lookup "banner_right" = some r) (x y : Nat)
    (hx : x < img.width) (hy : y < img.height) :
    (redact_image img [r]).pix x y
      = if 620 ≤ x ∧ x ≤ 829 ∧ 102 ≤ y ∧ y ≤ 125 then black
        else img.pix x y := by
  have hr2 : bannerRight = r := Option.some.inj hr
  cases hr2
  show (drawRect img bannerRight).pix x y = _
  simp only [drawRect, inRect, bannerRight, Bool.and_eq_true,
    decide_eq_true_eq, and_assoc]

/-- Witness for C8 at a constant-pixel 829×1567 image and the interior
pixel (700, 110). -/
theorem redact_banner_right_preset_witness :
    (Img.mk 829 1567 (fun _ _ => (7, 7, 7))).width = 829 ∧
    (Img.mk 829 1567 (fun _ _ => (7, 7, 7))).height = 1567 ∧
    REDACT_PRESETS.lookup "banner_right" = some bannerRight ∧
    700 < (Img.mk 829 1567 (fun _ _ => (7, 7, 7))).width ∧
    110 < (Img.mk 829 1567 (fun _ _ => (7, 7, 7))).height ∧
    ((redact_image (Img.mk 829 1567 (fun _ _ => (7, 7, 7)))
        [bannerRight]).pix 700 110
      = if 620 ≤ 700 ∧ 700 ≤ 829 ∧ 102 ≤ 110 ∧ 110 ≤ 125 then black
        else (Img.mk 829 1567 (fun _ _ => (7, 7, 7))).pix 700 110) :=
  ⟨rfl, rfl, rfl, by decide, by decide,
   redact_banner_right_preset (Img.mk 829 1567 (fun _ _ => (7, 7, 7)))
     rfl rfl bannerRight rfl 700 110 (by decide) (by decide)⟩

/-! ## C9 — unknown preset names are logged and skipped -/

theorem collectAreas_eq (names : List String) :
    collectAreas names
      = (names.filterMap (fun n => REDACT_PRESETS.lookup n),
         names.filterMap (fun n =>
            match REDACT_PRESETS.lookup n with
            | some _ => none
            | none => some ("Unknown area: " ++ n))) := by
  induction names with
  | nil => rfl
  | cons n rest ih =>
      cases h : REDACT_PRESETS.lookup n <;>
        simp [collectAreas, h, ih, List.filterMap_cons]

theorem redact_pix_any (img : Img) (areas : List Rect) (x y : Nat) :
    (redact_image img areas).pix x y
      = if areas.any (fun r => inRect r x y) then black
        else img.pix x y := by
  induction areas generalizing img with
  | nil => simp [redact_image]
  | cons r rs ih =>
      show (redact_image (drawRect img r) rs).pix x y = _
      rw [ih]
      cases h1 : inRect r x y <;>
        cases h2 : rs.any (fun r => inRect r x y) <;>
        simp [h1, h2, drawRect, List.any_cons]

/-- C9: every name passed to the redactor that is not a known preset is
logged (`Unknown area: ...`) and skipped; the image is redacted at exactly
the rectangles of the recognized preset names, in input order. -/
theorem unknown_presets_skipped (names : List String) (hne : names ≠ []) :
    (mainAreas names).1
      = names.filterMap (fun n => REDACT_PRESETS.lookup n) ∧
    (mainAreas names).2
      = names.filterMap (fun n =>
          match REDACT_PRESETS.lookup n with
          | some _ => none
          | none => some ("Unknown area: " ++ n)) ∧
    ∀ img x y, (redact_image img (mainAreas names).1).pix x y
      = if (names.filterMap (fun n => REDACT_PRESETS.lookup n)).any
            (fun r => inRect r x y) then black
        else img.pix x y := by
  have hm : mainAreas names = collectAreas names := by
    cases names with
    | nil => exact absurd rfl hne
    | cons a l => rfl
  rw [hm, collectAreas_eq]
  exact ⟨rfl, rfl, fun img x y => redact_pix_any img _ x y⟩

/-- Witness for C9 on the list `["banner_right", "nope"]` (one known, one
unknown name). -/
theorem unknown_presets_skipped_witness :
    (["banner_right", "nope"] ≠ ([] : List String)) ∧
    ((mainAreas ["banner_right", "nope"]).1
      = ["banner_right", "nope"].filterMap
          (fun n => REDACT_PRESETS.lookup n) ∧
    (mainAreas ["banner_right", "nope"]).2
      = ["banner_right", "nope"].filterMap (fun n =>
          match REDACT_PRESETS.lookup n with
          | some _ => none
          | none => some ("Unknown area: " ++ n)) ∧
    ∀ img x y,
      (redact_image img (mainAreas ["banner_right", "nope"]).1).pix x y
        = if (["banner_right", "nope"].filterMap
              (fun n => REDACT_PRESETS.lookup n)).any
              (fun r => inRect r x y) then black
          else img.pix x y) :=
  ⟨by decide, unknown_presets_skipped ["banner_right", "nope"] (by decide)⟩

/-! ## C10 — bound emission is conditioned solely on `min` -/

/-- C10: a setting declaring `max` but not `min` gets no `_MIN`/`_MAX`
constants in the firmware header (the emission is guarded only by the
presence of `min`), while the validation schema still carries its
`maximum` (and no `minimum`); a setting declaring `min` but not `max`
makes header generation fail (`KeyError` on `setting["max"]`) instead of
emitting a partial pair. -/
theorem bound_emission_requires_min (s : SettingsSchema) (ts : String)
    (gname : String) (g : SettingGroup) (hg : (gname, g) ∈ s.groups)
    (sname : String) (sd : SettingDef) (hsd : (sname, sd) ∈ g.settings)
    (mx : SValue) (hmin : sd.min = none) (hmax : sd.max = some mx)
    (hnum : sd.type = .tint ∨ sd.type = .tfloat) :
    cppBoundLines gname (sname, sd) = some [] ∧
    (gname, groupSchemaJson g)
      ∈ s.groups.map (fun p => (p.1, groupSchemaJson p.2)) ∧
    (sname, Json.jobj (settingPropFields sd))
      ∈ g.settings.map (fun q => (q.1, Json.jobj (settingPropFields q.2))) ∧
    ("maximum", toJson mx) ∈ settingPropFields sd ∧
    (∀ v, ("minimum", v) ∉ settingPropFields sd) ∧
    (∀ (s2 : SettingsSchema) (ts2 : String) (p : String × SettingGroup)
        (q : String × SettingDef), p ∈ s2.groups → q ∈ p.2.settings →
        q.2.min.isSome → q.2.max = none → generateCppLines ts2 s2 = none) := by
  refine ⟨by simp [cppBoundLines, hmin], List.mem_map_of_mem _ hg,
    List.mem_map_of_mem _ hsd, ?_, ?_, ?_⟩
  · rcases hnum with h | h <;> simp [settingPropFields, h, hmin, hmax]
  · intro v hv
    rcases hnum with h | h <;>
      simp [settingPropFields, h, hmin, hmax] at hv
  · intro s2 ts2 p q hp hq hqmin hqmax
    have hql : cppBoundLines p.1 q = none := by
      cases h1 : q.2.min with
      | none => rw [h1] at hqmin; cases hqmin
      | some m => simp only [cppBoundLines, h1, hqmax]
    rw [generateCppLines, cppBoundAll_none hp (cppBoundGroup_none hq hql)]
    rfl

/-- Witness for C10 at a schema whose single setting declares only `max`. -/
theorem bound_emission_requires_min_witness :
    (("display", c10Group)
      ∈ (SettingsSchema.mk 1 [("display", c10Group)]).groups ∧
     ("gamma", c10Setting) ∈ c10Group.settings) ∧
    (cppBoundLines "display" ("gamma", c10Setting) = some [] ∧
    ("display", groupSchemaJson c10Group)
      ∈ (SettingsSchema.mk 1 [("display", c10Group)]).groups.map
          (fun p => (p.1, groupSchemaJson p.2)) ∧
    ("gamma", Json.jobj (settingPropFields c10Setting))
      ∈ c10Group.settings.map
          (fun q => (q.1, Json.jobj (settingPropFields q.2))) ∧
    ("maximum", toJson (.vint 5)) ∈ settingPropFields c10Setting ∧
    (∀ v, ("minimum", v) ∉ settingPropFields c10Setting) ∧
    (∀ (s2 : SettingsSchema) (ts2 : String) (p : String × SettingGroup)
        (q : String × SettingDef), p ∈ s2.groups → q ∈ p.2.settings →
        q.2.min.isSome → q.2.max = none →
        generateCppLines ts2 s2 = none)) :=
  ⟨⟨by decide, by decide⟩,
   bound_emission_requires_min (SettingsSchema.mk 1 [("display", c10Group)])
     "T" "display" c10Group (by decide) "gamma" c10Setting (by decide)
     (.vint 5) rfl rfl (Or.inl rfl)⟩

/-! ## C6 — insertion order is preserved in all four artifacts -/

theorem filter_cons_pos {α : Type} (p : α → Bool) (a : α) (l : List α)
    (h : p a = true) : (a :: l).filter p = a :: l.filter p := by
  simp [List.filter, h]

theorem filter_cons_neg {α : Type} (p : α → Bool) (a : α) (l : List α)
    (h : p a = false) : (a :: l).filter p = l.filter p := by
  simp [List.filter, h]

theorem flatMap_congr_mem {α β : Type} {f g : α → List β} {l : List α}
    (h : ∀ a ∈ l, f a = g a) : l.flatMap f = l.flatMap g := by
  induction l with
  | nil => rfl
  | cons a rest ih =>
      simp only [List.flatMap_cons, h a (List.mem_cons_self a rest),
        ih (fun x hx => h x (List.mem_cons_of_mem a hx))]

theorem flatMap_eq_map_of_singleton {α β : Type} {f : α → List β}
    {g : α → β} (h : ∀ a, f a = [g a]) (l : List α) :
    l.flatMap f = l.map g := by
  induction l with
  | nil => rfl
  | cons a rest ih => simp only [List.flatMap_cons, h a, ih]; rfl

theorem map_congr_fun {α β : Type} {f g : α → β} (h : ∀ a, f a = g a)
    (l : List α) : l.map f = l.map g := by
  induction l with
  | nil => rfl
  | cons a rest ih => simp only [List.map_cons, h a, ih]

/-- Struct headers of one C++ group block. -/
theorem cppStructLines_filter_struct (p : String × SettingGroup) :
    (cppStructLines p).filter isStructLine
      = ["struct " ++ (pyCapitalize p.1 ++ "Settings \x7b")] := by
  rw [cppStructLines, filter_cons_neg _ _ _ rfl, filter_cons_pos _ _ _ rfl,
    List.filter_append, filter_map_of_false (fun q => rfl)]
  rfl

/-- Field lines of one C++ group block. -/
theorem cppStructLines_filter_field (p : String × SettingGroup) :
    (cppStructLines p).filter isFieldLine
      = p.2.settings.map (fun q => cppFieldLine q.1 q.2) := by
  rw [cppStructLines, filter_cons_neg _ _ _ rfl, filter_cons_neg _ _ _ rfl,
    List.filter_append, filter_map_of_true (fun q => rfl)]
  rw [show List.filter isFieldLine ["\x7d;", ""] = [] from rfl,
    List.append_nil]

theorem flatMap_nil_of_all {α β : Type} {f : α → List β} {l : List α}
    (h : ∀ a ∈ l, f a = []) : l.flatMap f = [] := by
  induction l with
  | nil => rfl
  | cons a rest ih =>
      simp only [List.flatMap_cons, h a (List.mem_cons_self a rest),
        ih (fun x hx => h x (List.mem_cons_of_mem a hx)), List.nil_append]

/-- Export lines of one TypeScript group block. -/
theorem tsGroupLines_filter_export (p : String × SettingGroup) :
    (tsGroupLines p).filter isExportLine
      = ["export interface " ++ (tsInterfaceName p.1 ++ " \x7b")] := by
  rw [tsGroupLines, filter_cons_neg _ _ _ rfl, filter_cons_pos _ _ _ rfl,
    List.filter_append, filter_flatMap_eq,
    flatMap_nil_of_all
      (fun q _ => (rfl : (tsSettingLines q).filter isExportLine = []))]
  rfl

/-- Two-space member lines of one TypeScript group block. -/
theorem tsGroupLines_filter_twoSpace (p : String × SettingGroup) :
    (tsGroupLines p).filter isTwoSpaceLine
      = p.2.settings.flatMap tsSettingLines := by
  rw [tsGroupLines, filter_cons_neg _ _ _ rfl, filter_cons_neg _ _ _ rfl,
    List.filter_append, filter_flatMap_eq,
    show List.filter isTwoSpaceLine ["\x7d", ""] = [] from rfl,
    List.append_nil]
  exact flatMap_congr_mem (fun q _ => rfl)

/-- Heading lines of one markdown group block (the group description must
not itself look like a heading line). -/
theorem mdGroupLines_filter_heading (p : String × SettingGroup)
    (hd : isHeadingLine p.2.description = false) :
    (mdGroupLines p).filter isHeadingLine
      = ["## " ++ pyCapitalize p.1] := by
  rw [mdGroupLines, filter_cons_pos _ _ _ rfl, filter_cons_neg _ _ _ rfl,
    filter_cons_neg _ _ _ hd, filter_cons_neg _ _ _ rfl,
    filter_cons_neg _ _ _ rfl, filter_cons_neg _ _ _ rfl,
    List.filter_append, filter_map_of_false (fun q => rfl)]
  rfl

/-- Table rows of one markdown group block (the group description must not
itself look like a table row). -/
theorem mdGroupLines_filter_row (p : String × SettingGroup)
    (hd : isRowLine p.2.description = false) :
    (mdGroupLines p).filter isRowLine
      = p.2.settings.map (fun q => mdRowLine q.1 q.2) := by
  rw [mdGroupLines, filter_cons_neg _ _ _ rfl, filter_cons_neg _ _ _ rfl,
    filter_cons_neg _ _ _ hd, filter_cons_neg _ _ _ rfl,
    filter_cons_neg _ _ _ rfl, filter_cons_neg _ _ _ rfl,
    List.filter_append, filter_map_of_true (fun q => rfl)]
  rw [show List.filter isRowLine [""] = [] from rfl, List.append_nil]

/-- The group skeleton of the JSON object of one group. -/
theorem jsonPropKeys_group (g : SettingGroup) :
    jsonPropKeys (groupSchemaJson g) = g.settings.map Prod.fst := by
  rw [show jsonPropKeys (groupSchemaJson g)
      = (g.settings.map
          (fun q => (q.1, Json.jobj (settingPropFields q.2)))).map Prod.fst
    from rfl]
  exact map_fst_label g.settings (fun v => Json.jobj (settingPropFields v))

/-- C6: the insertion order of groups and of settings within groups is the
emission order in all four artifacts: struct headers and struct field
lines in the firmware header, interface headers and member lines in the
TypeScript output, headings and table rows in the documentation, and the
group/setting skeleton of the validation schema.  (The observers on the
markdown output need the group descriptions not to look like heading or
row lines themselves.) -/
theorem insertion_order_preserved (s : SettingsSchema)
    (t₁ t₂ t₃ : String)
    (hdesc : ∀ p ∈ s.groups, isRowLine p.2.description = false ∧
      isHeadingLine p.2.description = false) :
    (∀ L, generateCppLines t₁ s = some L →
      L.filter isStructLine
        = s.groups.map
            (fun p => "struct " ++ (pyCapitalize p.1 ++ "Settings \x7b")) ∧
      L.filter isFieldLine
        = s.groups.flatMap
            (fun p => p.2.settings.map (fun q => cppFieldLine q.1 q.2))) ∧
    (generateTsLines t₂ s).filter isExportLine
      = s.groups.map
          (fun p => "export interface " ++ (tsInterfaceName p.1 ++ " \x7b"))
        ++ ["export interface SumiSettings \x7b"] ∧
    (generateTsLines t₂ s).filter isTwoSpaceLine
      = s.groups.flatMap (fun p => p.2.settings.flatMap tsSettingLines)
        ++ s.groups.map (fun p => tsSumiFieldLine p.1) ∧
    (generateMdLines t₃ s).filter isHeadingLine
      = s.groups.map (fun p => "## " ++ pyCapitalize p.1) ∧
    (generateMdLines t₃ s).filter isRowLine
      = s.groups.flatMap
          (fun p => p.2.settings.map (fun q => mdRowLine q.1 q.2)) ∧
    jsonSkeleton (generate_json_schema s)
      = s.groups.map (fun p => (p.1, p.2.settings.map Prod.fst)) := by
  refine ⟨?_, ?_, ?_, ?_, ?_, ?_⟩
  · intro L hL
    rcases Option.map_eq_some'.mp hL with ⟨bl, hbl, rfl⟩
    have hbsh := cppBoundAll_shape hbl
    constructor
    · have h1 : (cppPrefixLines t₁ s.version).filter isStructLine = [] := rfl
      have h2 : (s.groups.flatMap cppStructLines).filter isStructLine
          = s.groups.map
              (fun p => "struct " ++ (pyCapitalize p.1 ++ "Settings \x7b")) := by
        rw [filter_flatMap_eq]
        exact flatMap_eq_map_of_singleton cppStructLines_filter_struct s.groups
      have h3 : ("// Validation limits" :: bl).filter isStructLine = [] := by
        rw [filter_cons_neg _ _ _ rfl]
        exact filter_eq_nil_of_all (fun x hx => by
          rcases hbsh x hx with ⟨r, rfl⟩; rfl)
      have h4 : (["", "#endif // SUMI_SETTINGS_SCHEMA_H"] :
          List String).filter isStructLine = [] := rfl
      simp only [List.filter_append, h1, h2, h3, h4, List.nil_append,
        List.append_nil]
    · have h1 : (cppPrefixLines t₁ s.version).filter isFieldLine = [] := rfl
      have h2 : (s.groups.flatMap cppStructLines).filter isFieldLine
          = s.groups.flatMap
              (fun p => p.2.settings.map (fun q => cppFieldLine q.1 q.2)) := by
        rw [filter_flatMap_eq]
        exact flatMap_congr_mem (fun p _ => cppStructLines_filter_field p)
      have h3 : ("// Validation limits" :: bl).filter isFieldLine = [] := by
        rw [filter_cons_neg _ _ _ rfl]
        exact filter_eq_nil_of_all (fun x hx => by
          rcases hbsh x hx with ⟨r, rfl⟩; rfl)
      have h4 : (["", "#endif // SUMI_SETTINGS_SCHEMA_H"] :
          List String).filter isFieldLine = [] := rfl
      simp only [List.filter_append, h1, h2, h3, h4, List.nil_append,
        List.append_nil]
  · have h1 : (tsPrefixLines t₂).filter isExportLine = [] := rfl
    have h2 : (s.groups.flatMap tsGroupLines).filter isExportLine
        = s.groups.map
            (fun p => "export interface "
              ++ (tsInterfaceName p.1 ++ " \x7b")) := by
      rw [filter_flatMap_eq]
      exact flatMap_eq_map_of_singleton tsGroupLines_filter_export s.groups
    have h3 : (["/** Complete settings object */",
        "export interface SumiSettings \x7b"] : List String).filter
          isExportLine = ["export interface SumiSettings \x7b"] := rfl
    have h4 : (s.groups.map (fun p => tsSumiFieldLine p.1)).filter
        isExportLine = [] := filter_map_of_false (fun a => rfl) s.groups
    have h5 : (["\x7d"] : List String).filter isExportLine = [] := rfl
    rw [generateTsLines]
    simp only [List.filter_append, h1, h2, h3, h4, h5, List.nil_append,
      List.append_nil]
  · have h1 : (tsPrefixLines t₂).filter isTwoSpaceLine = [] := rfl
    have h2 : (s.groups.flatMap tsGroupLines).filter isTwoSpaceLine
        = s.groups.flatMap
            (fun p => p.2.settings.flatMap tsSettingLines) := by
      rw [filter_flatMap_eq]
      exact flatMap_congr_mem (fun p _ => tsGroupLines_filter_twoSpace p)
    have h3 : (["/** Complete settings object */",
        "export interface SumiSettings \x7b"] : List String).filter
          isTwoSpaceLine = [] := rfl
    have h4 : (s.groups.map (fun p => tsSumiFieldLine p.1)).filter
        isTwoSpaceLine = s.groups.map (fun p => tsSumiFieldLine p.1) :=
      filter_map_of_true (fun a => rfl) s.groups
    have h5 : (["\x7d"] : List String).filter isTwoSpaceLine = [] := rfl
    rw [generateTsLines]
    simp only [List.filter_append, h1, h2, h3, h4, h5, List.nil_append,
      List.append_nil]
  · have h1 : (mdPrefixLines t₃ s.version).filter isHeadingLine = [] := rfl
    have h2 : (s.groups.flatMap mdGroupLines).filter isHeadingLine
        = s.groups.map (fun p => "## " ++ pyCapitalize p.1) := by
      rw [filter_flatMap_eq,
        flatMap_congr_mem (fun p hp =>
          mdGroupLines_filter_heading p (hdesc p hp).2)]
      exact flatMap_eq_map_of_singleton (fun p => rfl) s.groups
    rw [generateMdLines]
    simp only [List.filter_append, h1, h2, List.nil_append]
  · have h1 : (mdPrefixLines t₃ s.version).filter isRowLine = [] := rfl
    have h2 : (s.groups.flatMap mdGroupLines).filter isRowLine
        = s.groups.flatMap
            (fun p => p.2.settings.map (fun q => mdRowLine q.1 q.2)) := by
      rw [filter_flatMap_eq]
      exact flatMap_congr_mem (fun p hp =>
        mdGroupLines_filter_row p (hdesc p hp).1)
    rw [generateMdLines]
    simp only [List.filter_append, h1, h2, List.nil_append]
  · rw [show jsonSkeleton (generate_json_schema s)
        = (s.groups.map (fun p => (p.1, groupSchemaJson p.2))).map
            (fun p => (p.1, jsonPropKeys p.2)) from rfl]
    rw [List.map_map]
    exact map_congr_fun
      (fun p => by simp [Function.comp, jsonPropKeys_group]) s.groups

/-- Witness for C6 at the round-trip fragment (its description `d` is
neither a heading nor a row line). -/
theorem insertion_order_preserved_witness :
    (∀ p ∈ miniSchema.groups, isRowLine p.2.description = false ∧
      isHeadingLine p.2.description = false) ∧
    ((∀ L, generateCppLines "T1" miniSchema = some L →
      L.filter isStructLine
        = miniSchema.groups.map
            (fun p => "struct " ++ (pyCapitalize p.1 ++ "Settings \x7b")) ∧
      L.filter isFieldLine
        = miniSchema.groups.flatMap
            (fun p => p.2.settings.map (fun q => cppFieldLine q.1 q.2))) ∧
    (generateTsLines "T2" miniSchema).filter isExportLine
      = miniSchema.groups.map
          (fun p => "export interface " ++ (tsInterfaceName p.1 ++ " \x7b"))
        ++ ["export interface SumiSettings \x7b"] ∧
    (generateTsLines "T2" miniSchema).filter isTwoSpaceLine
      = miniSchema.groups.flatMap
          (fun p => p.2.settings.flatMap tsSettingLines)
        ++ miniSchema.groups.map (fun p => tsSumiFieldLine p.1) ∧
    (generateMdLines "T3" miniSchema).filter isHeadingLine
      = miniSchema.groups.map (fun p => "## " ++ pyCapitalize p.1) ∧
    (generateMdLines "T3" miniSchema).filter isRowLine
      = miniSchema.groups.flatMap
          (fun p => p.2.settings.map (fun q => mdRowLine q.1 q.2)) ∧
    jsonSkeleton (generate_json_schema miniSchema)
      = miniSchema.groups.map (fun p => (p.1, p.2.settings.map Prod.fst))) :=
  ⟨by decide,
   insertion_order_preserved miniSchema "T1" "T2" "T3" (by decide)⟩

end Sumi
